import Mathlib

/-!
Shallow embedding of the nullifier-based double-vote-prevention subsystem of
the midnight-zk-voting repository: the `DoubleVotePreventionSystem` ledger
(src/doubleVotePrevention.ts), the `SecureCryptographicNullifier` and
`SecureNullifierRegistry` module, the `ZKProofGenerator` input validation
(src/zkProofGenerator.ts with the `Field`/`Poseidon` mock of
lib/midnight-mock.ts), and the UI `NullifierService`
(ui/src/services/nullifierService.ts).

Modelling conventions:
* JavaScript `Map<string, T>` objects are insertion-ordered association
  lists; `Map.set` on a fresh key appends at the end.
* The crypto-js `CryptoJS.SHA256(s).toString()` hex digest is either kept
  abstract (a `sha256hex : String → String` parameter, assumed injective
  only where a theorem needs collision-freeness) or, for the
  `SecureCryptographicNullifier` module whose verifier inspects digest
  *lengths*, modelled by a free term algebra `HashVal` with an explicit
  `lengthOf` function under which every SHA-256 hex digest has length 64.
* `Date.now()`, `crypto.getRandomValues` nonces and `Math.random()` are
  explicit parameters of the operations that read them.
* JavaScript numbers holding integers (timestamps, vote choices) are `Int`.
-/

namespace MidnightVoting

/-- Lookup in a JS `Map<string, α>` modelled as an insertion-ordered
association list (`Map.prototype.get`). -/
def mapGet {α : Type} (m : List (String × α)) (k : String) : Option α :=
  (m.find? (fun e => e.1 == k)).map (·.2)

namespace DVPS

/-- `NullifierRecord` interface of src/doubleVotePrevention.ts. -/
structure NullifierRecord where
  nullifier : String
  proposalId : String
  timestamp : Int
  blockNumber : Nat
deriving DecidableEq, Repr

/-- `VoteAttempt` interface of src/doubleVotePrevention.ts. -/
structure VoteAttempt where
  proposalId : String
  voterSecret : String
  voteChoice : Int
  timestamp : Int
deriving DecidableEq, Repr

/-- Mutable state of a `DoubleVotePreventionSystem` instance:
`usedNullifiers : Map<string, NullifierRecord>` and
`nullifierHistory : NullifierRecord[]`. -/
structure SystemState where
  usedNullifiers : List (String × NullifierRecord)
  nullifierHistory : List NullifierRecord
deriving DecidableEq, Repr

/-- Freshly constructed `DoubleVotePreventionSystem`. -/
def initialState : SystemState := ⟨[], []⟩

/-- `DoubleVotePreventionSystem.generateNullifier`:
`SHA256(voterSecret + ":" + proposalId + ":nullifier_salt_2024")`.
`sha256hex` models `CryptoJS.SHA256(input).toString()`. -/
def generateNullifier (sha256hex : String → String)
    (voterSecret proposalId : String) : String :=
  sha256hex (voterSecret ++ ":" ++ proposalId ++ ":nullifier_salt_2024")

/-- Return type of `DoubleVotePreventionSystem.attemptVote`. -/
structure VoteResult where
  success : Bool
  nullifier : String
  reason : Option String
  previousVote : Option NullifierRecord
deriving DecidableEq, Repr

/-- `DoubleVotePreventionSystem.getNextBlockNumber` (mock block numbers). -/
def getNextBlockNumber (s : SystemState) : Nat :=
  s.nullifierHistory.length + 1000

/-- `DoubleVotePreventionSystem.attemptVote`, with the state threaded
explicitly: derive the nullifier; if already present in `usedNullifiers`,
reject without touching the state; otherwise record it in both the map and
the history. -/
def attemptVote (sha256hex : String → String) (s : SystemState)
    (va : VoteAttempt) : VoteResult × SystemState :=
  let nullifier := generateNullifier sha256hex va.voterSecret va.proposalId
  match mapGet s.usedNullifiers nullifier with
  | some existingRecord =>
      (⟨false, nullifier, some "Double voting detected", some existingRecord⟩, s)
  | none =>
      let record : NullifierRecord :=
        ⟨nullifier, va.proposalId, va.timestamp, getNextBlockNumber s⟩
      (⟨true, nullifier, none, none⟩,
        ⟨s.usedNullifiers ++ [(nullifier, record)],
         s.nullifierHistory ++ [record]⟩)

/-- Fold a sequence of `attemptVote` submissions over the system state. -/
def runAttempts (sha256hex : String → String) (s : SystemState)
    (l : List VoteAttempt) : SystemState :=
  l.foldl (fun st a => (attemptVote sha256hex st a).2) s

/-- `DoubleVotePreventionSystem.isNullifierUsed`. -/
def isNullifierUsed (s : SystemState) (nullifier : String) : Bool :=
  (mapGet s.usedNullifiers nullifier).isSome

end DVPS

/-- Free term algebra of JavaScript string values flowing through the
`SecureCryptographicNullifier` module.  `str` embeds ordinary string
literals, `sha256` is the crypto-js hex digest (an ideal collision-free
hash, 64 hex characters), `cat` is string concatenation and `trunc v n` is
`v.substring(0, n)` for `n` strictly below the length of `v`. -/
inductive HashVal : Type where
  | str : String → HashVal
  | sha256 : HashVal → HashVal
  | cat : HashVal → HashVal → HashVal
  | trunc : HashVal → Nat → HashVal
deriving DecidableEq, Repr

/-- JavaScript `.length` of the string a `HashVal` denotes: a crypto-js
SHA-256 hex digest always has 64 characters. -/
def HashVal.lengthOf : HashVal → Nat
  | .str s => s.length
  | .sha256 _ => 64
  | .cat a b => a.lengthOf + b.lengthOf
  | .trunc a n => min a.lengthOf n

/-- JavaScript `v.substring(0, n)`: the identity whenever `n` is at least
the length of `v`. -/
def jsSubstring (v : HashVal) (n : Nat) : HashVal :=
  if v.lengthOf ≤ n then v else .trunc v n

/-- JavaScript `Array.prototype.join(sep)` on an array of string values. -/
def joinVals (sep : String) : List HashVal → HashVal
  | [] => .str ""
  | [v] => v
  | v :: rest => .cat v (.cat (.str sep) (joinVals sep rest))

namespace SecureCryptographicNullifier

/-- `SecureCryptographicNullifier.CURVE_ORDER` constant. -/
def CURVE_ORDER : HashVal :=
  .str "21888242871839275222246405745257275088696311157297823662689037894645226208583"

/-- `SecureCryptographicNullifier.GENERATOR_POINT` constant. -/
def GENERATOR_POINT : String := "0x01"

/-- `SecureCryptographicNullifier.PEDERSEN_H` constant. -/
def PEDERSEN_H : String := "0x02"

/-- `SecureCryptographicNullifier.modularReduction`: hashes the value once
more and takes `substring(0, 64)` of the 64-character hex digest (the
`modulus` argument is unused by the source). -/
def modularReduction (value _modulus : HashVal) : HashVal :=
  jsSubstring (.sha256 value) 64

/-- `SecureCryptographicNullifier.poseidonHash`: joins the inputs with
`"||"`, takes the SHA-256 hex digest and reduces it. -/
def poseidonHash (inputs : List HashVal) : HashVal :=
  modularReduction (.sha256 (joinVals "||" inputs)) CURVE_ORDER

/-- `SecureCryptographicNullifier.pedersenCommit`:
`SHA256(SHA256(value + G).toString() + SHA256(blinding + H).toString())`. -/
def pedersenCommit (value blindingFactor : HashVal) : HashVal :=
  .sha256 (.cat (.sha256 (.cat value (.str GENERATOR_POINT)))
                (.sha256 (.cat blindingFactor (.str PEDERSEN_H))))

/-- `SecureCryptographicNullifier.concatenateInputs`: maps SHA-256 over the
inputs. -/
def concatenateInputs (inputs : List HashVal) : List HashVal :=
  inputs.map .sha256

/-- `SecureVoterCredentials` interface. -/
structure SecureVoterCredentials where
  voterSecret : HashVal
  voterCommitment : HashVal
  merkleIndex : Nat
  merkleProof : List HashVal
  voterPublicKey : HashVal
  voterPrivateKey : HashVal
deriving DecidableEq, Repr

/-- `SecureNullifierProof` interface (the proof bundle). -/
structure SecureNullifierProof where
  nullifier : HashVal
  nullifierProof : HashVal
  voteCommitment : HashVal
  rangeProof : HashVal
  membershipProof : HashVal
  timestamp : Int
  nonce : HashVal
deriving DecidableEq, Repr

/-- `SecureCryptographicNullifier.generateNullifierProof`:
`poseidonHash([voterCommitment, proposalId, nullifier, nonce])`. -/
def generateNullifierProof (credentials : SecureVoterCredentials)
    (proposalId : String) (nullifier nonce : HashVal) : HashVal :=
  poseidonHash [credentials.voterCommitment, .str proposalId, nullifier, nonce]

/-- `SecureCryptographicNullifier.generateRangeProof`. -/
def generateRangeProof (voteChoice : Int) (blindingFactor : HashVal) : HashVal :=
  poseidonHash [.str (toString voteChoice), blindingFactor, .str "range_proof_salt"]

/-- `SecureCryptographicNullifier.generateMembershipProof`. -/
def generateMembershipProof (credentials : SecureVoterCredentials) : HashVal :=
  poseidonHash [credentials.voterCommitment,
    .str (toString credentials.merkleIndex), .str "membership_proof_salt"]

/-- `SecureCryptographicNullifier.generateSecureNullifier`.  The fresh
values the source samples (`nonce = generateSecureRandom()`,
`voteBlindingFactor = generateSecureRandom()`) and the clock read
(`timestamp = Date.now()`) are explicit parameters.  Throws (`Except.error`)
on a vote choice outside `{0, 1}` before building anything. -/
def generateSecureNullifier (voterCredentials : SecureVoterCredentials)
    (proposalId : String) (voteChoice : Int)
    (nonce : HashVal) (voteBlindingFactor : HashVal) (timestamp : Int) :
    Except String SecureNullifierProof :=
  if voteChoice ≠ 0 ∧ voteChoice ≠ 1 then
    .error "Invalid vote choice. Must be 0 or 1."
  else
    let nullifierInput := concatenateInputs
      [voterCredentials.voterSecret, .str proposalId, nonce,
       .str (toString timestamp)]
    let nullifier := poseidonHash nullifierInput
    let voteCommitment :=
      pedersenCommit (.str (toString voteChoice)) voteBlindingFactor
    let nullifierProof :=
      generateNullifierProof voterCredentials proposalId nullifier nonce
    let rangeProof := generateRangeProof voteChoice voteBlindingFactor
    let membershipProof := generateMembershipProof voterCredentials
    .ok ⟨nullifier, nullifierProof, voteCommitment, rangeProof,
         membershipProof, timestamp, nonce⟩

/-- `SecureCryptographicNullifier.verifyRangeProof`: length checks only. -/
def verifyRangeProof (proof commitment : HashVal) : Bool :=
  proof.lengthOf == 64 && commitment.lengthOf == 64

/-- `SecureCryptographicNullifier.verifyMembershipProof`: length checks
only; the registry root must be a non-empty string. -/
def verifyMembershipProof (proof registryRoot : HashVal) : Bool :=
  proof.lengthOf == 64 && decide (0 < registryRoot.lengthOf)

/-- `SecureCryptographicNullifier.verifyNullifierStructure`: every digest
field has length 64 and the timestamp is positive. -/
def verifyNullifierStructure (p : SecureNullifierProof) : Bool :=
  p.nullifier.lengthOf == 64 &&
  p.nullifierProof.lengthOf == 64 &&
  p.voteCommitment.lengthOf == 64 &&
  p.rangeProof.lengthOf == 64 &&
  p.membershipProof.lengthOf == 64 &&
  p.nonce.lengthOf == 64 &&
  decide (0 < p.timestamp)

/-- `SecureCryptographicNullifier.verifyNullifierProof`.  `currentTime`
models the `Date.now()` read.  The source first computes
`expectedNullifierInput` and never uses it (kept here as a dead let
binding), then checks the range proof, the membership proof, the structure
and finally the freshness window `|now − timestamp| ≤ 3600000`, returning
`false` at the first failing check.  The surrounding `try/catch` can only
take the `catch` branch on a thrown exception, and none of the called
operations throws. -/
def verifyNullifierProof (currentTime : Int) (nullifierProof : SecureNullifierProof)
    (proposalId : String) (voterRegistryRoot : HashVal) : Bool :=
  let _expectedNullifierInput := concatenateInputs
    [.str "hidden_voter_secret", .str proposalId, nullifierProof.nonce,
     .str (toString nullifierProof.timestamp)]
  if !verifyRangeProof nullifierProof.rangeProof nullifierProof.voteCommitment then
    false
  else if !verifyMembershipProof nullifierProof.membershipProof voterRegistryRoot then
    false
  else if !verifyNullifierStructure nullifierProof then
    false
  else if decide (3600000 < (currentTime - nullifierProof.timestamp).natAbs) then
    false
  else
    true

/-- Return type of `checkNullifierUniqueness`. -/
structure UniquenessCheck where
  isUnique : Bool
  conflictDetected : Bool
deriving DecidableEq, Repr

/-- `SecureCryptographicNullifier.checkNullifierUniqueness`. -/
def checkNullifierUniqueness (nullifier : HashVal)
    (existingNullifiers : List HashVal) : UniquenessCheck :=
  let isUnique := !existingNullifiers.contains nullifier
  ⟨isUnique, !isUnique⟩

end SecureCryptographicNullifier

namespace SecureNullifierRegistry

open SecureCryptographicNullifier

/-- Mutable state of a `SecureNullifierRegistry` instance:
`nullifiers : Map<string, SecureNullifierProof>`, `merkleTree : string[]`
and `registryRoot : string`. -/
structure RegistryState where
  nullifiers : List (HashVal × SecureNullifierProof)
  merkleTree : List HashVal
  registryRoot : HashVal
deriving DecidableEq, Repr

/-- Freshly constructed `SecureNullifierRegistry`: empty map, empty tree,
empty-string root. -/
def initialRegistry : RegistryState := ⟨[], [], .str ""⟩

/-- One level of `computeMerkleRoot`: hash adjacent pairs, duplicating the
last leaf of an odd level (`leaves[i + 1] || left`). -/
def hashPairs : List HashVal → List HashVal
  | [] => []
  | [l] => [.sha256 (.cat l l)]
  | l :: r :: rest => .sha256 (.cat l r) :: hashPairs rest

theorem hashPairs_length_le (l : List HashVal) : (hashPairs l).length ≤ l.length := by
  match l with
  | [] => simp [hashPairs]
  | [x] => simp [hashPairs]
  | x :: y :: rest =>
      have ih := hashPairs_length_le rest
      simp only [hashPairs, List.length_cons]
      omega

/-- `SecureNullifierRegistry.computeMerkleRoot` (recursive pairwise
hashing; empty input gives the empty string). -/
def computeMerkleRoot : List HashVal → HashVal
  | [] => .str ""
  | [l] => l
  | a :: b :: rest => computeMerkleRoot (hashPairs (a :: b :: rest))
termination_by l => l.length
decreasing_by
  have h := hashPairs_length_le rest
  simp only [hashPairs, List.length_cons]
  omega

/-- `SecureNullifierRegistry.addNullifier`, with the state threaded
explicitly and the verifier clock read (`Date.now()`) as a parameter:
verify the proof against the current `registryRoot`; check uniqueness of
the nullifier among the map keys; only then insert and rebuild the Merkle
tree (`updateMerkleTree`).  Both failure paths return `false` without
touching the state. -/
def addNullifier (currentTime : Int) (s : RegistryState)
    (nullifierProof : SecureNullifierProof) (proposalId : String) :
    Bool × RegistryState :=
  if !verifyNullifierProof currentTime nullifierProof proposalId s.registryRoot then
    (false, s)
  else
    let uniquenessCheck := checkNullifierUniqueness nullifierProof.nullifier
      (s.nullifiers.map (·.1))
    if !uniquenessCheck.isUnique then
      (false, s)
    else
      let nullifiers := s.nullifiers ++ [(nullifierProof.nullifier, nullifierProof)]
      let merkleTree := nullifiers.map (·.1)
      (true, ⟨nullifiers, merkleTree, computeMerkleRoot merkleTree⟩)

/-- Fold a sequence of `addNullifier` submissions (clock reading, bundle,
proposal id) over the registry state. -/
def runAdds (s : RegistryState)
    (l : List (Int × SecureNullifierProof × String)) : RegistryState :=
  l.foldl (fun st a => (addNullifier a.1 st a.2.1 a.2.2).2) s

/-- `SecureNullifierRegistry.verifyRegistryIntegrity`: every map entry is
keyed by its bundle's own nullifier. -/
def verifyRegistryIntegrity (s : RegistryState) : Bool :=
  s.nullifiers.all (fun e => e.2.nullifier == e.1)

end SecureNullifierRegistry

/-- `ToInt32` coercion applied by JavaScript bitwise operators: wrap into
the signed 32-bit range. -/
def toInt32 (n : Int) : Int :=
  (n + 2147483648) % 4294967296 - 2147483648

/-- The 31-based JavaScript string hash loop
`h = (h << 5) - h + charCodeAt(i); h = h & h` shared (verbatim) by the
`Poseidon` mock of lib/midnight-mock.ts and by
`NullifierService.generateNullifier` and `hashVoterIdentifier`.  `h << 5`
is `toInt32 (h * 32)` and `h & h` re-coerces the exact intermediate sum to
a signed 32-bit integer.  `charCodeAt` is the character code (all strings
involved lie in the basic multilingual plane). -/
def jsStringHash (s : String) : Int :=
  s.data.foldl (fun h c => toInt32 (toInt32 (h * 32) - h + c.toNat)) 0

/-- JavaScript `n.toString(16)` for a non-negative integer (lowercase hex
digits). -/
def jsHexString (n : Nat) : String :=
  String.mk (Nat.toDigits 16 n)

namespace Mock

/-- `Field` of lib/midnight-mock.ts: a wrapped string value. -/
structure Field where
  value : String
deriving DecidableEq, Repr

/-- `Field.fromString`. -/
def Field.fromString (value : String) : Field := ⟨value⟩

/-- `Field.fromNumber` (stores the decimal rendering). -/
def Field.fromNumber (value : Int) : Field := ⟨toString value⟩

/-- `Field.toString`. -/
def Field.toStr (f : Field) : String := f.value

/-- `Poseidon.hash` mock of lib/midnight-mock.ts: join the field strings,
run the 31-based hash loop, return the decimal rendering of its absolute
value as a field. -/
def Poseidon.hash (inputs : List Field) : Field :=
  ⟨toString (jsStringHash (String.join (inputs.map Field.toStr))).natAbs⟩

end Mock

namespace ZKProofGenerator

/-- `VoteProofInputs` interface of src/zkProofGenerator.ts. -/
structure VoteProofInputs where
  proposalId : String
  voteChoice : Int
  voterSecret : String
  voterNullifier : String
  merkleRoot : Option String
  merklePath : Option (List String)
  merkleIndices : Option (List Nat)
deriving DecidableEq, Repr

/-- `ZKProofGenerator.validateInputs`: the thrown validation errors in
source order.  A falsy string argument is the empty string (the fields are
typed `string`). -/
def validateInputs (inputs : VoteProofInputs) : Except String Unit :=
  if inputs.proposalId = "" then
    .error "Proposal ID is required"
  else if inputs.voteChoice ≠ 0 ∧ inputs.voteChoice ≠ 1 then
    .error "Vote choice must be 0 (No) or 1 (Yes)"
  else if inputs.voterSecret = "" then
    .error "Voter secret is required"
  else if inputs.voterNullifier = "" then
    .error "Voter nullifier is required"
  else
    .ok ()

/-- `ZKProofGenerator.computeNullifier`: Poseidon over the three field
encodings. -/
def computeNullifier (voterSecret nullifier proposalId : String) : String :=
  (Mock.Poseidon.hash
    [Mock.Field.fromString voterSecret,
     Mock.Field.fromString nullifier,
     Mock.Field.fromString proposalId]).toStr

/-- `ZKProofGenerator.computeVoteCommitment`. -/
def computeVoteCommitment (proposalId : String) (voteChoice : Int)
    (nullifier : String) : String :=
  (Mock.Poseidon.hash
    [Mock.Field.fromString proposalId,
     Mock.Field.fromNumber voteChoice,
     Mock.Field.fromNumber 1,
     Mock.Field.fromString nullifier]).toStr

/-- Payload assembled by `ZKProofGenerator.generateZKProof`.  The source
serialises this object with `JSON.stringify`; the serialisation is an
injective re-encoding and is modelled by the record itself. -/
structure ProofData where
  proposalId : String
  nullifierHash : String
  voteCommitment : String
  timestamp : Int
  mockProof : String
deriving DecidableEq, Repr

/-- `ZKProofGenerator.generateMockProof`: the proof elements joined with
`"|"`; `Buffer.from(s).toString(base64)` is an injective re-encoding and is
modelled by the joined string itself.  `randomSuffix` models
`Math.random().toString(36)`. -/
def generateMockProof (inputs : VoteProofInputs)
    (nullifierHash voteCommitment randomSuffix : String) : String :=
  String.intercalate "|"
    [inputs.proposalId, toString inputs.voteChoice, nullifierHash,
     voteCommitment, randomSuffix]

/-- `ZKProofGenerator.generateZKProof` (the mock proof payload);
`currentTime` models the `Date.now()` read. -/
def generateZKProof (currentTime : Int) (randomSuffix : String)
    (inputs : VoteProofInputs) (nullifierHash voteCommitment : String) :
    ProofData :=
  ⟨inputs.proposalId, nullifierHash, voteCommitment, currentTime,
   generateMockProof inputs nullifierHash voteCommitment randomSuffix⟩

/-- `VoteProofOutputs` interface. -/
structure VoteProofOutputs where
  nullifierHash : String
  voteCommitment : String
  proof : ProofData
deriving DecidableEq, Repr

/-- `ZKProofGenerator.generateVoteProof`: validate, then derive the
nullifier hash, the vote commitment and the mock proof.  Any error thrown
inside the `try` block (only `validateInputs` throws) is caught and
re-thrown as the generic message. -/
def generateVoteProof (currentTime : Int) (randomSuffix : String)
    (inputs : VoteProofInputs) : Except String VoteProofOutputs :=
  match validateInputs inputs with
  | .error _ => .error "Zero-knowledge proof generation failed"
  | .ok _ =>
      let nullifierHash := computeNullifier inputs.voterSecret
        inputs.voterNullifier inputs.proposalId
      let voteCommitment := computeVoteCommitment inputs.proposalId
        inputs.voteChoice inputs.voterNullifier
      let proof := generateZKProof currentTime randomSuffix inputs
        nullifierHash voteCommitment
      .ok ⟨nullifierHash, voteCommitment, proof⟩

end ZKProofGenerator

namespace NullifierService

/-- `NullifierRecord` interface of ui/src/services/nullifierService.ts. -/
structure UINullifierRecord where
  nullifier : String
  proposalId : String
  voterIdentifier : String
  timestamp : Int
deriving DecidableEq, Repr

/-- Mutable state of the `NullifierService` singleton:
`usedNullifiers : Map<string, NullifierRecord>`. -/
structure ServiceState where
  usedNullifiers : List (String × UINullifierRecord)
deriving DecidableEq, Repr

/-- `NullifierService.generateNullifier`: 31-based hash of
`voterSecret + ":" + proposalId + ":nullifier_salt_2024"`, rendered as
`nullifier_` followed by the lowercase hex of the absolute value. -/
def generateNullifier (voterSecret proposalId : String) : String :=
  "nullifier_" ++
    jsHexString (jsStringHash
      (voterSecret ++ ":" ++ proposalId ++ ":nullifier_salt_2024")).natAbs

/-- `NullifierService.hashVoterIdentifier`: `voter_` followed by the first
eight hex characters. -/
def hashVoterIdentifier (voterSecret : String) : String :=
  "voter_" ++
    (jsHexString (jsStringHash ("voter_id_" ++ voterSecret)).natAbs).take 8

/-- `VoteAttemptResult` interface. -/
structure VoteAttemptResult where
  canVote : Bool
  nullifier : String
  reason : Option String
  previousVoteTime : Option Int
deriving DecidableEq, Repr

/-- `NullifierService.checkVoteEligibility`: re-derive the nullifier and
look it up; a pure read of the state. -/
def checkVoteEligibility (s : ServiceState)
    (voterSecret proposalId : String) : VoteAttemptResult :=
  let nullifier := generateNullifier voterSecret proposalId
  match mapGet s.usedNullifiers nullifier with
  | some existingRecord =>
      ⟨false, nullifier, some "You have already voted on this proposal",
       some existingRecord.timestamp⟩
  | none =>
      ⟨true, nullifier,
       some "Ready to vote - this will be your first vote on this proposal",
       none⟩

/-- `NullifierService.recordVote`; `currentTime` models the `Date.now()`
read stored in the new record. -/
def recordVote (currentTime : Int) (s : ServiceState)
    (voterSecret proposalId : String) : VoteAttemptResult × ServiceState :=
  let eligibility := checkVoteEligibility s voterSecret proposalId
  if !eligibility.canVote then
    (eligibility, s)
  else
    let record : UINullifierRecord :=
      ⟨eligibility.nullifier, proposalId, hashVoterIdentifier voterSecret,
       currentTime⟩
    (⟨true, eligibility.nullifier, some "Vote successfully recorded", none⟩,
     ⟨s.usedNullifiers ++ [(eligibility.nullifier, record)]⟩)

/-- `NullifierService.formatTimeAgo`; `Math.floor` of a real quotient on
integers is floor division. -/
def formatTimeAgo (currentTime timestamp : Int) : String :=
  let diff := currentTime - timestamp
  let minutes := Int.fdiv diff 60000
  let hours := Int.fdiv diff 3600000
  let days := Int.fdiv diff 86400000
  if 0 < days then
    toString days ++ " day" ++ (if 1 < days then "s" else "") ++ " ago"
  else if 0 < hours then
    toString hours ++ " hour" ++ (if 1 < hours then "s" else "") ++ " ago"
  else if 0 < minutes then
    toString minutes ++ " minute" ++ (if 1 < minutes then "s" else "") ++ " ago"
  else
    "just now"

/-- Details object of the `getVoteStatus` return value. -/
structure StatusDetails where
  nullifier : String
  previousVoteTime : Option Int
  timeAgo : Option String
deriving DecidableEq, Repr

/-- Return value of `getVoteStatus`: `status` is one of the string literals
`can-vote`, `already-voted`, `checking`. -/
structure VoteStatus where
  status : String
  message : String
  details : StatusDetails
deriving DecidableEq, Repr

/-- `NullifierService.getVoteStatus`: a status query built on
`checkVoteEligibility`.  The method performs no writes; the state is
threaded to express that.  `currentTime` models the `Date.now()` read of
`formatTimeAgo`. -/
def getVoteStatus (currentTime : Int) (s : ServiceState)
    (voterSecret proposalId : String) : VoteStatus × ServiceState :=
  let result := checkVoteEligibility s voterSecret proposalId
  if result.canVote then
    (⟨"can-vote", "✅ Ready to vote", ⟨result.nullifier, none, none⟩⟩, s)
  else
    let timeAgo := match result.previousVoteTime with
      | some t => formatTimeAgo currentTime t
      | none => "unknown time"
    (⟨"already-voted", "🚫 Already voted on this proposal",
      ⟨result.nullifier, result.previousVoteTime, some timeAgo⟩⟩, s)

end NullifierService

section VerificationSide

open SecureCryptographicNullifier SecureNullifierRegistry

/-- Specification-side definition (spec.md §4.4, check (e)): the
nullifier-proof binds the bundle's nullifier to the claimed `proposalId`,
i.e. the `nullifierProof` field equals the proof the generator derives for
this very proposal (`generateNullifierProof`) for some voter commitment.
Used to compare the implemented verifier against the specified check
sequence. -/
def specNullifierBindingCheck (b : SecureNullifierProof)
    (proposalId : String) : Prop :=
  ∃ voterCommitment : HashVal,
    b.nullifierProof =
      poseidonHash [voterCommitment, .str proposalId, b.nullifier, b.nonce]

/-- The verifier invocation exactly as the registry performs it inside
`addNullifier`: `verifyNullifierProof(bundle, proposalId, this.registryRoot)`
reads the current `registryRoot` of the state and returns no state
change. -/
def verifyCall (currentTime : Int) (b : SecureNullifierProof) (p : String)
    (s : RegistryState) : Bool × RegistryState :=
  (verifyNullifierProof currentTime b p s.registryRoot, s)

/-- Sixty-four copies of `a`: a concrete string of digest length. -/
def hex64a : String := String.mk (List.replicate 64 'a')

/-- `hex64a` with its first byte changed: same length, one byte flipped. -/
def hex64b : String := String.mk ('b' :: List.replicate 63 'a')

/-- A concrete proof bundle whose digest fields all have length 64. -/
def sampleBundle (ts : Int) : SecureNullifierProof :=
  ⟨.sha256 (.str "nullifier"), .sha256 (.str "proof"),
   .sha256 (.str "commitment"), .sha256 (.str "range"),
   .sha256 (.str "membership"), ts, .sha256 (.str "nonce")⟩

/-- Concrete bundle whose `nullifier` field is the plain 64-character
string `hex64a`. -/
def bundleStrNullifier : SecureNullifierProof :=
  ⟨.str hex64a, .sha256 (.str "proof"), .sha256 (.str "commitment"),
   .sha256 (.str "range"), .sha256 (.str "membership"), 1,
   .sha256 (.str "nonce")⟩

/-- `bundleStrNullifier` with one byte of its `nullifier` field flipped
(length preserved). -/
def bundleStrNullifierFlipped : SecureNullifierProof :=
  { bundleStrNullifier with nullifier := .str hex64b }

/-- Concrete bundle whose `nullifierProof` field is the plain 64-character
string `hex64a` (so it is not a derived binding proof). -/
def bundleStrProofField : SecureNullifierProof :=
  ⟨.sha256 (.str "nullifier"), .str hex64a, .sha256 (.str "commitment"),
   .sha256 (.str "range"), .sha256 (.str "membership"), 1,
   .sha256 (.str "nonce")⟩

/-- Concrete voter credentials for exercising the generators. -/
def dummyCredentials : SecureVoterCredentials :=
  ⟨.str "s", .str "c", 0, [], .str "pk", .str "sk"⟩

/-- First bundle generated by `dummyCredentials` on proposal `p1` (vote 1,
nonce `n1`). -/
def c2bundleFirst : SecureNullifierProof :=
  (generateSecureNullifier dummyCredentials "p1" 1 (.str "n1") (.str "b1")
    1).toOption.getD (sampleBundle 1)

/-- Second, freshly generated bundle by the same `dummyCredentials` on the
same proposal `p1` (vote 0, fresh nonce `n2`). -/
def c2bundleSecond : SecureNullifierProof :=
  (generateSecureNullifier dummyCredentials "p1" 0 (.str "n2") (.str "b2")
    2).toOption.getD (sampleBundle 1)

/-- A registry state with a non-empty root, used to exercise the accepting
path of `addNullifier` (the reachable root is always empty, see the C2
theorem). -/
def seedRegistry : RegistryState := ⟨[], [], .str "root"⟩

/-- A second registry state with the same root as `seedRegistry` but
different map contents. -/
def seedRegistryFilled : RegistryState :=
  ⟨[(.str "k", sampleBundle 5)], [.str "k"], .str "root"⟩

end VerificationSide

section MapLemmas

theorem mapGet_nil {α : Type} (k : String) :
    mapGet ([] : List (String × α)) k = none := rfl

theorem mapGet_cons {α : Type} (e : String × α) (m : List (String × α))
    (k : String) :
    mapGet (e :: m) k = if e.1 = k then some e.2 else mapGet m k := by
  by_cases h : e.1 = k <;>
    simp [mapGet, List.find?_cons, h]

theorem mapGet_append {α : Type} (m₁ m₂ : List (String × α)) (k : String) :
    mapGet (m₁ ++ m₂) k =
      match mapGet m₁ k with
      | some v => some v
      | none => mapGet m₂ k := by
  induction m₁ with
  | nil => simp [mapGet_nil]
  | cons e rest ih =>
      rw [List.cons_append, mapGet_cons, mapGet_cons]
      by_cases h : e.1 = k <;> simp [h, ih]

theorem mapGet_isSome_iff {α : Type} (m : List (String × α)) (k : String) :
    (mapGet m k).isSome ↔ k ∈ m.map Prod.fst := by
  induction m with
  | nil => simp [mapGet_nil]
  | cons e rest ih =>
      rw [mapGet_cons]
      by_cases h : e.1 = k
      · simp [h]
      · rw [if_neg h, ih]
        simp only [List.map_cons, List.mem_cons]
        constructor
        · exact Or.inr
        · rintro (rfl | hmem)
          · exact absurd rfl h
          · exact hmem

end MapLemmas

namespace DVPS

theorem attemptVote_of_used (sha256hex : String → String)
    (s : SystemState) (va : VoteAttempt)
    (h : (mapGet s.usedNullifiers
      (generateNullifier sha256hex va.voterSecret va.proposalId)).isSome) :
    (attemptVote sha256hex s va).1.success = false ∧
    (attemptVote sha256hex s va).1.reason = some "Double voting detected" ∧
    (attemptVote sha256hex s va).2 = s := by
  unfold attemptVote
  cases hm : mapGet s.usedNullifiers
      (generateNullifier sha256hex va.voterSecret va.proposalId) with
  | none => rw [hm] at h; simp at h
  | some r => simp [hm]

theorem attemptVote_success_isSome (sha256hex : String → String)
    (s : SystemState) (va : VoteAttempt)
    (h : (attemptVote sha256hex s va).1.success = true) :
    (mapGet (attemptVote sha256hex s va).2.usedNullifiers
      (generateNullifier sha256hex va.voterSecret va.proposalId)).isSome := by
  unfold attemptVote at h ⊢
  cases hm : mapGet s.usedNullifiers
      (generateNullifier sha256hex va.voterSecret va.proposalId) with
  | some r => simp [hm] at h
  | none =>
      simp only [hm]
      rw [mapGet_append, hm, mapGet_cons]
      simp

theorem attemptVote_isSome_mono (sha256hex : String → String)
    (s : SystemState) (va : VoteAttempt) (n : String)
    (h : (mapGet s.usedNullifiers n).isSome) :
    (mapGet (attemptVote sha256hex s va).2.usedNullifiers n).isSome := by
  unfold attemptVote
  cases hm : mapGet s.usedNullifiers
      (generateNullifier sha256hex va.voterSecret va.proposalId) with
  | some r =>
      simp only [hm]
      exact h
  | none =>
      simp only [hm]
      rw [mapGet_append]
      cases hv : mapGet s.usedNullifiers n with
      | none => rw [hv] at h; simp at h
      | some w => simp

theorem runAttempts_cons (sha256hex : String → String) (s : SystemState)
    (a : VoteAttempt) (l : List VoteAttempt) :
    runAttempts sha256hex s (a :: l) =
      runAttempts sha256hex (attemptVote sha256hex s a).2 l := rfl

theorem runAttempts_isSome_mono (sha256hex : String → String)
    (l : List VoteAttempt) (s : SystemState) (n : String)
    (h : (mapGet s.usedNullifiers n).isSome) :
    (mapGet (runAttempts sha256hex s l).usedNullifiers n).isSome := by
  induction l generalizing s with
  | nil => exact h
  | cons a rest ih =>
      rw [runAttempts_cons]
      exact ih _ (attemptVote_isSome_mono sha256hex s a n h)

theorem attemptVote_preserves (sha256hex : String → String)
    (s : SystemState) (a : VoteAttempt)
    (h1 : (s.nullifierHistory.map (fun r => r.nullifier)).Nodup)
    (h2 : ∀ n : String, (mapGet s.usedNullifiers n).isSome ↔
      n ∈ s.nullifierHistory.map (fun r => r.nullifier)) :
    ((attemptVote sha256hex s a).2.nullifierHistory.map
      (fun r => r.nullifier)).Nodup ∧
    ∀ n : String, (mapGet (attemptVote sha256hex s a).2.usedNullifiers n).isSome ↔
      n ∈ (attemptVote sha256hex s a).2.nullifierHistory.map
        (fun r => r.nullifier) := by
  unfold attemptVote
  cases hm : mapGet s.usedNullifiers
      (generateNullifier sha256hex a.voterSecret a.proposalId) with
  | some r =>
      simp only [hm]
      exact ⟨h1, h2⟩
  | none =>
      simp only [hm]
      constructor
      · simp only [List.map_append, List.map_cons, List.map_nil]
        rw [List.nodup_append]
        refine ⟨h1, by simp, ?_⟩
        intro x hx hx'
        simp only [List.mem_singleton] at hx'
        subst hx'
        have := (h2 _).mpr hx
        simp [hm] at this
      · intro n
        simp only [List.map_append, List.map_cons, List.map_nil]
        rw [mapGet_append]
        cases hv : mapGet s.usedNullifiers n with
        | some w =>
            have hmem := (h2 n).mp (by simp [hv])
            simp only [List.mem_append]
            simp [hmem]
        | none =>
            have hn : n ∉ s.nullifierHistory.map (fun r => r.nullifier) := by
              intro hmem
              have := (h2 n).mpr hmem
              simp [hv] at this
            rw [mapGet_cons]
            by_cases he : generateNullifier sha256hex a.voterSecret a.proposalId = n
            · simp [he, hn]
            · simp [he, hn, mapGet_nil]
              exact fun hne => he hne.symm

theorem attemptVote_fresh (sha256hex : String → String)
    (s : SystemState) (va : VoteAttempt)
    (h : mapGet s.usedNullifiers
      (generateNullifier sha256hex va.voterSecret va.proposalId) = none) :
    attemptVote sha256hex s va =
      (⟨true, generateNullifier sha256hex va.voterSecret va.proposalId,
        none, none⟩,
       ⟨s.usedNullifiers ++
          [(generateNullifier sha256hex va.voterSecret va.proposalId,
            ⟨generateNullifier sha256hex va.voterSecret va.proposalId,
             va.proposalId, va.timestamp, getNextBlockNumber s⟩)],
        s.nullifierHistory ++
          [⟨generateNullifier sha256hex va.voterSecret va.proposalId,
            va.proposalId, va.timestamp, getNextBlockNumber s⟩]⟩) := by
  simp only [attemptVote]
  rw [h]

theorem attemptVote_success_of_fresh (sha256hex : String → String)
    (s : SystemState) (va : VoteAttempt)
    (h : mapGet s.usedNullifiers
      (generateNullifier sha256hex va.voterSecret va.proposalId) = none) :
    (attemptVote sha256hex s va).1.success = true := by
  rw [attemptVote_fresh sha256hex s va h]

theorem attemptVote_pair_success (sha256hex : String → String)
    (s : SystemState) (va₁ va₂ : VoteAttempt)
    (hdiff : generateNullifier sha256hex va₂.voterSecret va₂.proposalId ≠
      generateNullifier sha256hex va₁.voterSecret va₁.proposalId)
    (hfresh : mapGet s.usedNullifiers
      (generateNullifier sha256hex va₂.voterSecret va₂.proposalId) = none)
    (hacc : (attemptVote sha256hex s va₁).1.success = true) :
    (attemptVote sha256hex (attemptVote sha256hex s va₁).2 va₂).1.success = true := by
  apply attemptVote_success_of_fresh
  cases hm : mapGet s.usedNullifiers
      (generateNullifier sha256hex va₁.voterSecret va₁.proposalId) with
  | some r =>
      have hu := attemptVote_of_used sha256hex s va₁ (by simp [hm])
      rw [hu.1] at hacc
      cases hacc
  | none =>
      rw [attemptVote_fresh sha256hex s va₁ hm]
      show mapGet (s.usedNullifiers ++
        [(generateNullifier sha256hex va₁.voterSecret va₁.proposalId,
          ⟨generateNullifier sha256hex va₁.voterSecret va₁.proposalId,
           va₁.proposalId, va₁.timestamp, getNextBlockNumber s⟩)])
        (generateNullifier sha256hex va₂.voterSecret va₂.proposalId) = none
      rw [mapGet_append]
      simp only [hfresh]
      rw [mapGet_cons, if_neg (fun he => hdiff he.symm)]
      rfl

theorem runAttempts_invariant (sha256hex : String → String)
    (l : List VoteAttempt) (s : SystemState)
    (h1 : (s.nullifierHistory.map (fun r => r.nullifier)).Nodup)
    (h2 : ∀ n : String, (mapGet s.usedNullifiers n).isSome ↔
      n ∈ s.nullifierHistory.map (fun r => r.nullifier)) :
    ((runAttempts sha256hex s l).nullifierHistory.map
      (fun r => r.nullifier)).Nodup ∧
    ∀ n : String, (mapGet (runAttempts sha256hex s l).usedNullifiers n).isSome ↔
      n ∈ (runAttempts sha256hex s l).nullifierHistory.map
        (fun r => r.nullifier) := by
  induction l generalizing s with
  | nil => exact ⟨h1, h2⟩
  | cons a rest ih =>
      rw [runAttempts_cons]
      have step := attemptVote_preserves sha256hex s a h1 h2
      exact ih _ step.1 step.2

theorem saltedInput_inj (secret a b : String)
    (h : secret ++ ":" ++ a ++ ":nullifier_salt_2024" =
      secret ++ ":" ++ b ++ ":nullifier_salt_2024") : a = b := by
  have hd := congrArg String.data h
  simp only [String.data_append, List.append_assoc] at hd
  have h1 := List.append_cancel_left hd
  have h2 := List.append_cancel_left h1
  have h3 := List.append_cancel_right h2
  exact String.ext h3

theorem generateNullifier_inj_proposal (sha256hex : String → String)
    (hinj : Function.Injective sha256hex) (secret a b : String)
    (h : generateNullifier sha256hex secret a =
      generateNullifier sha256hex secret b) : a = b := by
  unfold generateNullifier at h
  exact saltedInput_inj secret a b (hinj h)

end DVPS

namespace SecureNullifierRegistry

open SecureCryptographicNullifier

theorem contains_eq_decide_mem (l : List HashVal) (a : HashVal) :
    l.contains a = decide (a ∈ l) := by
  induction l with
  | nil => simp
  | cons x xs ih => simp [List.contains_cons, ih]

theorem addNullifier_of_mem (currentTime : Int) (s : RegistryState)
    (b : SecureNullifierProof) (p : String)
    (h : b.nullifier ∈ s.nullifiers.map Prod.fst) :
    addNullifier currentTime s b p = (false, s) := by
  unfold addNullifier
  by_cases hv : verifyNullifierProof currentTime b p s.registryRoot
  · simp [hv, checkNullifierUniqueness, contains_eq_decide_mem, h]
  · simp [hv]

theorem addNullifier_mem_mono (currentTime : Int) (s : RegistryState)
    (b : SecureNullifierProof) (p : String) (k : HashVal)
    (h : k ∈ s.nullifiers.map Prod.fst) :
    k ∈ (addNullifier currentTime s b p).2.nullifiers.map Prod.fst := by
  unfold addNullifier
  by_cases hv : verifyNullifierProof currentTime b p s.registryRoot
  · by_cases hu : (checkNullifierUniqueness b.nullifier
        (s.nullifiers.map (fun e => e.1))).isUnique
    · simp only [hv, hu]
      simp [h]
    · simp [hv, hu, h]
  · simp [hv, h]

theorem addNullifier_success_mem (currentTime : Int) (s : RegistryState)
    (b : SecureNullifierProof) (p : String)
    (h : (addNullifier currentTime s b p).1 = true) :
    b.nullifier ∈ (addNullifier currentTime s b p).2.nullifiers.map Prod.fst := by
  unfold addNullifier at h ⊢
  by_cases hv : verifyNullifierProof currentTime b p s.registryRoot
  · by_cases hu : (checkNullifierUniqueness b.nullifier
        (s.nullifiers.map (fun e => e.1))).isUnique
    · simp only [hv, hu]
      simp
    · simp [hv, hu] at h
  · simp [hv] at h

theorem runAdds_cons (s : RegistryState)
    (a : Int × SecureNullifierProof × String)
    (l : List (Int × SecureNullifierProof × String)) :
    runAdds s (a :: l) = runAdds (addNullifier a.1 s a.2.1 a.2.2).2 l := rfl

theorem runAdds_mem_mono (l : List (Int × SecureNullifierProof × String))
    (s : RegistryState) (k : HashVal)
    (h : k ∈ s.nullifiers.map Prod.fst) :
    k ∈ (runAdds s l).nullifiers.map Prod.fst := by
  induction l generalizing s with
  | nil => exact h
  | cons a rest ih =>
      rw [runAdds_cons]
      exact ih _ (addNullifier_mem_mono a.1 s a.2.1 a.2.2 k h)

theorem verify_empty_root (currentTime : Int) (b : SecureNullifierProof)
    (p : String) :
    verifyNullifierProof currentTime b p (.str "") = false := by
  unfold verifyNullifierProof
  by_cases h : verifyRangeProof b.rangeProof b.voteCommitment
  · simp [h, verifyMembershipProof, HashVal.lengthOf]
  · simp [h]

theorem addNullifier_initial (currentTime : Int) (b : SecureNullifierProof)
    (p : String) :
    addNullifier currentTime initialRegistry b p = (false, initialRegistry) := by
  unfold addNullifier
  simp [initialRegistry, verify_empty_root]

end SecureNullifierRegistry

section ClaimTheorems

open SecureCryptographicNullifier

/-- C1: at-most-once per scope.  (i) Over every submission sequence the
`DoubleVotePreventionSystem` history never holds two entries with the same
nullifier (a fortiori none with the same nullifier and proposal scope);
(ii) once an `attemptVote` submission has been accepted, every subsequent
submission deriving the same nullifier for the same proposal is rejected as
a double vote and changes no state; (iii) once `addNullifier` has returned
`true` for a bundle, every subsequent submission carrying the same
nullifier returns `false` and changes no state. -/
theorem atMostOncePerScope :
    (∀ (sha256hex : String → String) (l : List DVPS.VoteAttempt),
      ((DVPS.runAttempts sha256hex DVPS.initialState l).nullifierHistory.map
        (fun r => r.nullifier)).Nodup) ∧
    (∀ (sha256hex : String → String) (s : DVPS.SystemState)
        (va : DVPS.VoteAttempt) (l : List DVPS.VoteAttempt)
        (va' : DVPS.VoteAttempt),
      (DVPS.attemptVote sha256hex s va).1.success = true →
      DVPS.generateNullifier sha256hex va'.voterSecret va'.proposalId =
        DVPS.generateNullifier sha256hex va.voterSecret va.proposalId →
      va'.proposalId = va.proposalId →
      (DVPS.attemptVote sha256hex
        (DVPS.runAttempts sha256hex (DVPS.attemptVote sha256hex s va).2 l)
        va').1.success = false ∧
      (DVPS.attemptVote sha256hex
        (DVPS.runAttempts sha256hex (DVPS.attemptVote sha256hex s va).2 l)
        va').1.reason = some "Double voting detected" ∧
      (DVPS.attemptVote sha256hex
        (DVPS.runAttempts sha256hex (DVPS.attemptVote sha256hex s va).2 l)
        va').2 =
        DVPS.runAttempts sha256hex (DVPS.attemptVote sha256hex s va).2 l) ∧
    (∀ (currentTime : Int) (s : SecureNullifierRegistry.RegistryState)
        (b : SecureNullifierProof) (p : String)
        (l : List (Int × SecureNullifierProof × String))
        (currentTime' : Int) (b' : SecureNullifierProof) (p' : String),
      (SecureNullifierRegistry.addNullifier currentTime s b p).1 = true →
      b'.nullifier = b.nullifier →
      SecureNullifierRegistry.addNullifier currentTime'
          (SecureNullifierRegistry.runAdds
            (SecureNullifierRegistry.addNullifier currentTime s b p).2 l) b' p' =
        (false,
          SecureNullifierRegistry.runAdds
            (SecureNullifierRegistry.addNullifier currentTime s b p).2 l)) := by
  refine ⟨?_, ?_, ?_⟩
  · intro sha l
    exact (DVPS.runAttempts_invariant sha l DVPS.initialState (by simp [DVPS.initialState])
      (by intro n; simp [DVPS.initialState, mapGet_nil])).1
  · intro sha s va l va' hacc hn _hp
    have h1 := DVPS.attemptVote_success_isSome sha s va hacc
    have h2 := DVPS.runAttempts_isSome_mono sha l _ _ h1
    rw [← hn] at h2
    exact DVPS.attemptVote_of_used sha _ va' h2
  · intro t s b p l t' b' p' hacc hbn
    have h1 := SecureNullifierRegistry.addNullifier_success_mem t s b p hacc
    have h2 := SecureNullifierRegistry.runAdds_mem_mono l _ _ h1
    rw [← hbn] at h2
    exact SecureNullifierRegistry.addNullifier_of_mem t' _ b' p' h2

/-- Witness for C1: concrete accepted and subsequently rejected submissions
in both systems. -/
theorem atMostOncePerScope_witness :
    (DVPS.attemptVote id DVPS.initialState ⟨"p1", "alice", 1, 0⟩).1.success = true ∧
    (DVPS.attemptVote id
      (DVPS.runAttempts id (DVPS.attemptVote id DVPS.initialState
        ⟨"p1", "alice", 1, 0⟩).2 [⟨"p2", "bob", 1, 2⟩])
      ⟨"p1", "alice", 0, 5⟩).1.success = false ∧
    (SecureNullifierRegistry.addNullifier 1 seedRegistry (sampleBundle 1) "p1").1 = true ∧
    (SecureNullifierRegistry.addNullifier 2
      (SecureNullifierRegistry.runAdds
        (SecureNullifierRegistry.addNullifier 1 seedRegistry (sampleBundle 1) "p1").2 [])
      (sampleBundle 1) "p1").1 = false := by
  refine ⟨by decide, ?_, by decide, ?_⟩
  · exact (atMostOncePerScope.2.1 id DVPS.initialState ⟨"p1", "alice", 1, 0⟩
      [⟨"p2", "bob", 1, 2⟩] ⟨"p1", "alice", 0, 5⟩ (by decide) (by decide) (by decide)).1
  · exact congrArg Prod.fst (atMostOncePerScope.2.2 1 seedRegistry (sampleBundle 1)
      "p1" [] 2 (sampleBundle 1) "p1" (by decide) rfl)

/-- C2: evidence for the code bug.  (i) and (ii): a freshly constructed
`SecureNullifierRegistry` rejects every submission — its `registryRoot`
starts as the empty string, `verifyMembershipProof` requires a non-empty
root, and the root is only ever updated after a successful add — so the
reachable registry state is forever the initial one and the spec scenario
(first vote on `p1` Accepted, second rejected as a double vote) cannot even
reach its first step.  (iii): two bundles generated from the same
credential on the same proposal with distinct fresh nonces always carry
distinct nullifiers, so raw nullifier uniqueness cannot link them and the
second could never be rejected as a double vote. -/
theorem secureRegistryNeverAccepts :
    (∀ l, SecureNullifierRegistry.runAdds SecureNullifierRegistry.initialRegistry l =
      SecureNullifierRegistry.initialRegistry) ∧
    (∀ (currentTime : Int) (b : SecureNullifierProof) (p : String),
      SecureNullifierRegistry.addNullifier currentTime
        SecureNullifierRegistry.initialRegistry b p =
        (false, SecureNullifierRegistry.initialRegistry)) ∧
    (∀ (creds : SecureVoterCredentials) (p : String) (c₁ c₂ : Int)
        (nonce₁ nonce₂ blind₁ blind₂ : HashVal) (ts₁ ts₂ : Int)
        (b₁ b₂ : SecureNullifierProof),
      generateSecureNullifier creds p c₁ nonce₁ blind₁ ts₁ = .ok b₁ →
      generateSecureNullifier creds p c₂ nonce₂ blind₂ ts₂ = .ok b₂ →
      nonce₁ ≠ nonce₂ → b₁.nullifier ≠ b₂.nullifier) := by
  refine ⟨?_, SecureNullifierRegistry.addNullifier_initial, ?_⟩
  · intro l
    induction l with
    | nil => rfl
    | cons a rest ih =>
        rw [SecureNullifierRegistry.runAdds_cons,
          SecureNullifierRegistry.addNullifier_initial]
        exact ih
  · intro creds p c₁ c₂ nonce₁ nonce₂ blind₁ blind₂ ts₁ ts₂ b₁ b₂ h1 h2 hne heq
    unfold generateSecureNullifier at h1 h2
    split at h1
    · exact absurd h1 (by simp)
    split at h2
    · exact absurd h2 (by simp)
    injection h1 with h1'
    injection h2 with h2'
    rw [← h1', ← h2'] at heq
    simp only [poseidonHash, modularReduction, jsSubstring, concatenateInputs,
      joinVals, List.map_cons, List.map_nil, HashVal.lengthOf] at heq
    simp at heq
    exact hne heq.1

/-- Witness for C2: the spec scenario's first submission is rejected from
the fresh registry, and two concrete freshly generated bundles of the same
credential on `p1` have different nullifiers. -/
theorem secureRegistryNeverAccepts_witness :
    SecureNullifierRegistry.addNullifier 1 SecureNullifierRegistry.initialRegistry
      (sampleBundle 1) "p1" = (false, SecureNullifierRegistry.initialRegistry) ∧
    c2bundleFirst.nullifier ≠ c2bundleSecond.nullifier :=
  ⟨secureRegistryNeverAccepts.2.1 1 (sampleBundle 1) "p1",
   secureRegistryNeverAccepts.2.2 dummyCredentials "p1" 1 0 (.str "n1")
     (.str "n2") (.str "b1") (.str "b2") 1 2 c2bundleFirst c2bundleSecond
     rfl rfl (by decide)⟩

/-- C3: cross-scope independence.  With the hash modelled as injective
(ideal collision-free SHA-256), if a voter's submission on proposal `pA`
is accepted and the voter has no entry for `pB` yet, then the immediately
subsequent submission by the same voter on a different proposal `pB` is
also accepted: the derived nullifier includes the proposal identifier, so
per-proposal uniqueness does not imply global one-vote-ever. -/
theorem crossScopeIndependence (sha256hex : String → String)
    (hinj : Function.Injective sha256hex) (s : DVPS.SystemState)
    (voterSecret pA pB : String) (v₁ v₂ t₁ t₂ : Int) (hAB : pA ≠ pB)
    (hfresh : mapGet s.usedNullifiers
      (DVPS.generateNullifier sha256hex voterSecret pB) = none)
    (hacc : (DVPS.attemptVote sha256hex s
      ⟨pA, voterSecret, v₁, t₁⟩).1.success = true) :
    (DVPS.attemptVote sha256hex
      (DVPS.attemptVote sha256hex s ⟨pA, voterSecret, v₁, t₁⟩).2
      ⟨pB, voterSecret, v₂, t₂⟩).1.success = true := by
  have hdiff : DVPS.generateNullifier sha256hex voterSecret pB ≠
      DVPS.generateNullifier sha256hex voterSecret pA := by
    intro he
    exact hAB (DVPS.generateNullifier_inj_proposal sha256hex hinj
      voterSecret pB pA he).symm
  exact DVPS.attemptVote_pair_success sha256hex s ⟨pA, voterSecret, v₁, t₁⟩
    ⟨pB, voterSecret, v₂, t₂⟩ hdiff hfresh hacc

/-- Witness for C3: the identity function is injective, and a concrete
voter accepted on proposal `a` is then accepted on proposal `b`. -/
theorem crossScopeIndependence_witness :
    (DVPS.attemptVote id
      (DVPS.attemptVote id DVPS.initialState ⟨"a", "alice", 1, 0⟩).2
      ⟨"b", "alice", 0, 1⟩).1.success = true :=
  crossScopeIndependence id (fun _ _ h => h) DVPS.initialState "alice" "a" "b"
    1 0 0 1 (by decide) (by decide) (by decide)

/-- C4: evidence for the code bug.  A bundle whose `nullifier` field is a
plain 64-character string passes `verifyNullifierProof`, and so does the
same bundle with one byte of that field flipped (length preserved): the
verifier checks only field lengths, timestamp positivity and freshness, so
single-byte tampering is not detected. -/
theorem tamperedBundleStillVerifies :
    verifyNullifierProof 1 bundleStrNullifier "p1" (.str "root") = true ∧
    verifyNullifierProof 1 bundleStrNullifierFlipped "p1" (.str "root") = true ∧
    bundleStrNullifierFlipped ≠ bundleStrNullifier ∧
    bundleStrNullifierFlipped.nullifier.lengthOf =
      bundleStrNullifier.nullifier.lengthOf ∧
    bundleStrNullifierFlipped.nullifierProof = bundleStrNullifier.nullifierProof ∧
    bundleStrNullifierFlipped.voteCommitment = bundleStrNullifier.voteCommitment ∧
    bundleStrNullifierFlipped.rangeProof = bundleStrNullifier.rangeProof ∧
    bundleStrNullifierFlipped.membershipProof = bundleStrNullifier.membershipProof ∧
    bundleStrNullifierFlipped.timestamp = bundleStrNullifier.timestamp ∧
    bundleStrNullifierFlipped.nonce = bundleStrNullifier.nonce := by
  decide

/-- C5: freshness boundary.  Holding the range, membership and structural
checks valid, the verifier rejects a bundle with
`timestamp = now − maxSkew − 1`, accepts `timestamp = now − maxSkew + 1`,
and in general accepts exactly when `|now − timestamp| ≤ maxSkew`
(`maxSkew = 3600000` ms). -/
theorem freshnessBoundary (currentTime : Int) (b : SecureNullifierProof)
    (p : String) (root : HashVal)
    (hrange : verifyRangeProof b.rangeProof b.voteCommitment = true)
    (hmem : verifyMembershipProof b.membershipProof root = true)
    (hstruct : verifyNullifierStructure b = true) :
    (b.timestamp = currentTime - 3600001 →
      verifyNullifierProof currentTime b p root = false) ∧
    (b.timestamp = currentTime - 3599999 →
      verifyNullifierProof currentTime b p root = true) ∧
    (verifyNullifierProof currentTime b p root = true ↔
      (currentTime - b.timestamp).natAbs ≤ 3600000) := by
  have hv : verifyNullifierProof currentTime b p root =
      (if 3600000 < (currentTime - b.timestamp).natAbs then false else true) := by
    unfold verifyNullifierProof
    simp [hrange, hmem, hstruct]
  refine ⟨?_, ?_, ?_⟩ <;> rw [hv]
  · intro h
    rw [if_pos (by omega)]
  · intro h
    rw [if_neg (by omega)]
  · by_cases hf : 3600000 < (currentTime - b.timestamp).natAbs
    · rw [if_pos hf]
      constructor
      · intro h
        exact absurd h (by simp)
      · intro h
        omega
    · rw [if_neg hf]
      constructor
      · intro _
        omega
      · intro _
        rfl

/-- Witness for C5: a concrete bundle at `now − maxSkew + 1` is accepted
and one at `now − maxSkew − 1` is rejected. -/
theorem freshnessBoundary_witness :
    verifyNullifierProof 4000000 (sampleBundle 400001) "p1" (.str "root") = true ∧
    verifyNullifierProof 4000000 (sampleBundle 399999) "p1" (.str "root") = false :=
  ⟨(freshnessBoundary 4000000 (sampleBundle 400001) "p1" (.str "root")
      (by decide) (by decide) (by decide)).2.1 (by decide),
   (freshnessBoundary 4000000 (sampleBundle 399999) "p1" (.str "root")
      (by decide) (by decide) (by decide)).1 (by decide)⟩

/-- C6: input validation fails fast.  `generateSecureNullifier` throws its
validation error for every vote choice outside `{0, 1}` before producing
any bundle, and `generateVoteProof` rejects an empty proposal id and a
vote choice outside `{0, 1}`; no input is silently clamped. -/
theorem inputValidationFailFast :
    (∀ (creds : SecureVoterCredentials) (proposalId : String)
        (voteChoice : Int) (nonce blind : HashVal) (ts : Int),
      voteChoice ≠ 0 → voteChoice ≠ 1 →
      generateSecureNullifier creds proposalId voteChoice nonce blind ts =
        Except.error "Invalid vote choice. Must be 0 or 1.") ∧
    (∀ (currentTime : Int) (randomSuffix : String)
        (inputs : ZKProofGenerator.VoteProofInputs),
      inputs.proposalId = "" →
      ZKProofGenerator.generateVoteProof currentTime randomSuffix inputs =
        Except.error "Zero-knowledge proof generation failed") ∧
    (∀ (currentTime : Int) (randomSuffix : String)
        (inputs : ZKProofGenerator.VoteProofInputs),
      inputs.voteChoice ≠ 0 → inputs.voteChoice ≠ 1 →
      ZKProofGenerator.generateVoteProof currentTime randomSuffix inputs =
        Except.error "Zero-knowledge proof generation failed") := by
  refine ⟨?_, ?_, ?_⟩
  · intro creds pid choice nonce blind ts h0 h1
    unfold generateSecureNullifier
    simp [h0, h1]
  · intro t r inputs h
    unfold ZKProofGenerator.generateVoteProof ZKProofGenerator.validateInputs
    simp [h]
  · intro t r inputs h0 h1
    unfold ZKProofGenerator.generateVoteProof ZKProofGenerator.validateInputs
    by_cases hp : inputs.proposalId = "" <;> simp [hp, h0, h1]

/-- Witness for C6: concrete invalid inputs are rejected with the exact
error messages. -/
theorem inputValidationFailFast_witness :
    generateSecureNullifier dummyCredentials "p1" 2 (.str "n") (.str "b") 1 =
      Except.error "Invalid vote choice. Must be 0 or 1." ∧
    ZKProofGenerator.generateVoteProof 1 "r" ⟨"", 1, "s", "n", none, none, none⟩ =
      Except.error "Zero-knowledge proof generation failed" ∧
    ZKProofGenerator.generateVoteProof 1 "r" ⟨"p", 5, "s", "n", none, none, none⟩ =
      Except.error "Zero-knowledge proof generation failed" :=
  ⟨inputValidationFailFast.1 dummyCredentials "p1" 2 (.str "n") (.str "b") 1
      (by decide) (by decide),
   inputValidationFailFast.2.1 1 "r" _ rfl,
   inputValidationFailFast.2.2 1 "r" _ (by decide) (by decide)⟩

/-- Counterexample for C7: the verifier accepts a bundle whose
`nullifierProof` field is a plain 64-character string that is not a derived
binding proof for the claimed proposal — the specified check (e), binding
the nullifier to the `proposalId`, is not performed. -/
theorem verifierBindingCheckMissing :
    verifyNullifierProof 1 bundleStrProofField "p1" (.str "root") = true ∧
    ¬ specNullifierBindingCheck bundleStrProofField "p1" := by
  constructor
  · decide
  · rintro ⟨c, hc⟩
    simp [specNullifierBindingCheck, bundleStrProofField, poseidonHash,
      modularReduction, jsSubstring, HashVal.lengthOf] at hc

/-- C7 amended: `verifyNullifierProof` checks, in order and
short-circuiting, the range-proof and vote-commitment widths, the
membership-proof width together with a non-empty registry root, the
structural widths of all digest fields with a positive timestamp, and the
freshness window; it performs no check binding the nullifier to the
claimed proposal, and its result is independent of the `proposalId`
argument. -/
theorem verifierChecksActual (currentTime : Int) (b : SecureNullifierProof)
    (p p' : String) (root : HashVal) :
    verifyNullifierProof currentTime b p root =
      verifyNullifierProof currentTime b p' root ∧
    (verifyNullifierProof currentTime b p root = true ↔
      (verifyRangeProof b.rangeProof b.voteCommitment = true ∧
       verifyMembershipProof b.membershipProof root = true ∧
       verifyNullifierStructure b = true ∧
       (currentTime - b.timestamp).natAbs ≤ 3600000)) := by
  constructor
  · rfl
  · unfold verifyNullifierProof
    by_cases h1 : verifyRangeProof b.rangeProof b.voteCommitment
    all_goals by_cases h2 : verifyMembershipProof b.membershipProof root
    all_goals by_cases h3 : verifyNullifierStructure b
    all_goals by_cases h4 : 3600000 < (currentTime - b.timestamp).natAbs
    all_goals simp [h1, h2, h3, h4]
    all_goals omega

/-- Counterexample for C8: two `verifyNullifierProof` calls with identical
bundle, proposal id and registry root return different booleans when
evaluated at different clock readings — the `Date.now()` read is a hidden
input, so the verifier is not a pure function of the three listed
arguments. -/
theorem verifierClockDependence :
    verifyNullifierProof 1000 (sampleBundle 1000) "p1" (.str "root") = true ∧
    verifyNullifierProof 7201000 (sampleBundle 1000) "p1" (.str "root") = false := by
  decide

/-- C8 amended: with the clock reading counted among the inputs, the
verifier is pure — the registry invokes it with the root passed by value
(`verifyCall`), the call leaves the registry state unchanged, and two
calls whose states carry the same root yield the same boolean. -/
theorem verifierPurityTimed (currentTime : Int) (b : SecureNullifierProof)
    (p : String) (s s' : SecureNullifierRegistry.RegistryState)
    (hroot : s.registryRoot = s'.registryRoot) :
    (verifyCall currentTime b p s).2 = s ∧
    (verifyCall currentTime b p s).1 = (verifyCall currentTime b p s').1 := by
  refine ⟨rfl, ?_⟩
  unfold verifyCall
  rw [hroot]

/-- Witness for C8 amended: two concrete registry states with equal roots
but different contents give the same verification outcome, with no state
change. -/
theorem verifierPurityTimed_witness :
    (verifyCall 1 (sampleBundle 1) "p1" seedRegistry).2 = seedRegistry ∧
    (verifyCall 1 (sampleBundle 1) "p1" seedRegistry).1 =
      (verifyCall 1 (sampleBundle 1) "p1" seedRegistryFilled).1 :=
  verifierPurityTimed 1 (sampleBundle 1) "p1" seedRegistry seedRegistryFilled rfl

/-- C9: the status query is correct and read-only.  `getVoteStatus`
returns `already-voted` exactly when the deterministically re-derived
nullifier is present in the used-nullifier ledger, `can-vote` exactly when
it is absent, and it never changes the ledger. -/
theorem voteStatusQueryCorrect (currentTime : Int)
    (s : NullifierService.ServiceState) (voterSecret proposalId : String) :
    ((NullifierService.getVoteStatus currentTime s voterSecret proposalId).1.status =
        "already-voted" ↔
      (mapGet s.usedNullifiers
        (NullifierService.generateNullifier voterSecret proposalId)).isSome) ∧
    ((NullifierService.getVoteStatus currentTime s voterSecret proposalId).1.status =
        "can-vote" ↔
      mapGet s.usedNullifiers
        (NullifierService.generateNullifier voterSecret proposalId) = none) ∧
    (NullifierService.getVoteStatus currentTime s voterSecret proposalId).2 = s := by
  unfold NullifierService.getVoteStatus NullifierService.checkVoteEligibility
  cases hm : mapGet s.usedNullifiers
      (NullifierService.generateNullifier voterSecret proposalId) with
  | some r => simp [hm]
  | none => simp [hm]

/-- C10: atomicity of rejection.  Whenever `attemptVote` rejects a
submission or `addNullifier` returns `false` — failed verification or a
duplicate nullifier — the state (used-nullifier map, history list, Merkle
tree and root) is exactly the state before the call. -/
theorem rejectionAtomicity :
    (∀ (sha256hex : String → String) (s : DVPS.SystemState)
        (va : DVPS.VoteAttempt),
      (DVPS.attemptVote sha256hex s va).1.success = false →
      (DVPS.attemptVote sha256hex s va).2 = s) ∧
    (∀ (currentTime : Int) (s : SecureNullifierRegistry.RegistryState)
        (b : SecureNullifierProof) (p : String),
      (SecureNullifierRegistry.addNullifier currentTime s b p).1 = false →
      (SecureNullifierRegistry.addNullifier currentTime s b p).2 = s) := by
  constructor
  · intro sha s va h
    unfold DVPS.attemptVote at h ⊢
    cases hm : mapGet s.usedNullifiers
        (DVPS.generateNullifier sha va.voterSecret va.proposalId) with
    | some r => simp [hm]
    | none => simp [hm] at h
  · intro t s b p h
    unfold SecureNullifierRegistry.addNullifier at h ⊢
    by_cases hv : verifyNullifierProof t b p s.registryRoot
    · by_cases hu : (checkNullifierUniqueness b.nullifier
          (s.nullifiers.map (fun e => e.1))).isUnique
      · simp [hv, hu] at h
      · simp [hv, hu]
    · simp [hv]

/-- Witness for C10: a concrete duplicate vote leaves the ledger state
unchanged, and a concrete rejected registry submission leaves the registry
unchanged. -/
theorem rejectionAtomicity_witness :
    (DVPS.attemptVote id (DVPS.attemptVote id DVPS.initialState
      ⟨"p1", "alice", 1, 0⟩).2 ⟨"p1", "alice", 0, 5⟩).2 =
      (DVPS.attemptVote id DVPS.initialState ⟨"p1", "alice", 1, 0⟩).2 ∧
    (SecureNullifierRegistry.addNullifier 1
      SecureNullifierRegistry.initialRegistry (sampleBundle 1) "p1").2 =
      SecureNullifierRegistry.initialRegistry :=
  ⟨rejectionAtomicity.1 id _ _ (by decide),
   rejectionAtomicity.2 1 _ _ _ (by decide)⟩

end ClaimTheorems

end MidnightVoting
